import Mathlib

/-!
Verification development for the Personal-AI-Assistant repository.

We shallowly embed the workflow controller of `email_agent.py`, the calendar
helpers of `calendar_utils.py`, the draft helper of `gmail_utils.py`, and the
`confirm_calendar` endpoint of `server.py`.  External collaborators (the Gmail
API, the Google Calendar API and the LLM) are modelled as oracle functions
packed into an `Env` record; every call the embedded code makes to a calendar
or draft collaborator is additionally recorded in an explicit `ExtCall` log so
that theorems can speak about which external calls were attempted.

Python `datetime` values are modelled by `PyDateTime`; `datetime` arithmetic
(`timedelta` addition) is implemented through days-from-civil/civil-from-days
Gregorian conversions, exactly the arithmetic CPython performs.  Fallible
Python code (an uncaught `ValueError`/`TypeError`) is modelled with
`Except String`.
-/

namespace Assistant

/-- One normalized email record as produced by `fetch_unread_emails`
(`gmail_utils.py`). -/
structure Email where
  id : String
  thread_id : String
  sender : String
  sender_email : String
  subject : String
  date : String
  body : String
  snippet : String
deriving DecidableEq, Repr

/-- The `calendar_details` sub-dictionary of the classifier JSON
(`email_agent.py`, prompt schema).  Each field is `Option` because a JSON
dictionary may lack the key; `none` everywhere models the empty dict `{}`. -/
structure CalendarDetails where
  title : Option String
  date : Option String
  time : Option String
  duration_minutes : Option Int
  description : Option String
  attendee_email : Option String
deriving DecidableEq, Repr

/-- The empty `calendar_details` dictionary `{}`. -/
def emptyDetails : CalendarDetails :=
  ⟨none, none, none, none, none, none⟩

/-- Python truthiness `not details` for the schema-restricted
`calendar_details` dict: true exactly when the dict is empty. -/
def CalendarDetails.isEmpty (d : CalendarDetails) : Bool :=
  d.title.isNone && d.date.isNone && d.time.isNone &&
    d.duration_minutes.isNone && d.description.isNone && d.attendee_email.isNone

/-- The classifier JSON object read by `summarize_email_node`
(`email_agent.py`): each field is `Option` because `data.get(key, default)`
supplies a default when the key is absent. -/
structure ClassifierData where
  summary : Option String
  sender_intent : Option String
  key_points : Option (List String)
  action_required : Option Bool
  urgency : Option String
  reply_needed : Option Bool
  reply_reason : Option String
  calendar_action : Option String
  calendar_details : Option CalendarDetails
deriving DecidableEq, Repr

/-- Result of running the LLM classification plus `json.loads` on its output
(`summarize_email_node`).  `unparseable content` is the case where parsing the
(fence-stripped) response raised, carrying the raw `response.content`;
`parsed d` is the successfully decoded JSON object. -/
inductive ClassifierResponse where
  | unparseable (content : String)
  | parsed (data : ClassifierData)
deriving DecidableEq, Repr

/-- The event resource returned by a successful
`service.events().insert(...).execute()` call; `.get` keys we read. -/
structure CalEvent where
  id : Option String
  htmlLink : Option String
deriving DecidableEq, Repr

/-- One busy interval from the freebusy query in `check_conflicts`. -/
structure BusySlot where
  bstart : String
  bend : String
deriving DecidableEq, Repr

/-- The event resource body built by `create_event` (`calendar_utils.py`). -/
structure EventBody where
  summary : String
  description : String
  start_dateTime : String
  end_dateTime : String
  timeZone : String
  reminder_email_minutes : Int
  reminder_popup_minutes : Int
  attendees : List String
  sendUpdates : String
deriving DecidableEq, Repr

/-- An attempted external Gmail/Calendar call, with its arguments.  The log of
these calls is threaded through the embedding so that theorems can state that
a call was (or was not) attempted. -/
inductive ExtCall where
  | checkConflicts (timeMin timeMax : String)
  | createEvent (title start_time end_time description attendee_email : String)
      (reminder_minutes : Int) (timezone : String)
  | saveDraft (recipient subject body : String) (threadId : Option String)
deriving DecidableEq, Repr

/-- Is this external call a calendar call (conflict check or event/reminder
creation)? -/
def ExtCall.isCalendarCall : ExtCall → Bool
  | ExtCall.checkConflicts _ _ => true
  | ExtCall.createEvent _ _ _ _ _ _ _ => true
  | ExtCall.saveDraft _ _ _ _ => false

/-- Python `datetime.datetime` (no timezone info, microseconds unused). -/
structure PyDateTime where
  year : Int
  month : Int
  day : Int
  hour : Int
  minute : Int
  second : Int
deriving DecidableEq, Repr

/-- Days since 1970-01-01 of a Gregorian civil date (Hinnant
days-from-civil); the arithmetic behind CPython `datetime.toordinal`. -/
def daysFromCivil (y0 m d : Int) : Int :=
  let y := y0 - (if m ≤ 2 then 1 else 0)
  let era := Int.ediv y 400
  let yoe := y - era * 400
  let mp := Int.emod (m + 9) 12
  let doy := Int.ediv (153 * mp + 2) 5 + d - 1
  let doe := yoe * 365 + Int.ediv yoe 4 - Int.ediv yoe 100 + doy
  era * 146097 + doe - 719468

/-- Gregorian civil date from days since 1970-01-01 (Hinnant
civil-from-days); the arithmetic behind CPython `datetime.fromordinal`. -/
def civilFromDays (z0 : Int) : Int × Int × Int :=
  let z := z0 + 719468
  let era := Int.ediv z 146097
  let doe := z - era * 146097
  let yoe := Int.ediv (doe - Int.ediv doe 1460 + Int.ediv doe 36524 - Int.ediv doe 146096) 365
  let y := yoe + era * 400
  let doy := doe - (365 * yoe + Int.ediv yoe 4 - Int.ediv yoe 100)
  let mp := Int.ediv (5 * doy + 2) 153
  let d := doy - Int.ediv (153 * mp + 2) 5 + 1
  let m := mp + (if mp < 10 then 3 else -9)
  (y + (if m ≤ 2 then 1 else 0), m, d)

/-- Seconds since the epoch of a `PyDateTime` (naive). -/
def PyDateTime.toEpochSeconds (dt : PyDateTime) : Int :=
  daysFromCivil dt.year dt.month dt.day * 86400 +
    dt.hour * 3600 + dt.minute * 60 + dt.second

/-- `PyDateTime` of a count of seconds since the epoch (naive). -/
def pyOfEpochSeconds (t : Int) : PyDateTime :=
  let days := Int.ediv t 86400
  let secs := Int.emod t 86400
  let c := civilFromDays days
  ⟨c.1, c.2.1, c.2.2, Int.ediv secs 3600, Int.ediv (Int.emod secs 3600) 60, Int.emod secs 60⟩

/-- Python `dt + timedelta(minutes=k)`. -/
def pyAddMinutes (dt : PyDateTime) (k : Int) : PyDateTime :=
  pyOfEpochSeconds (dt.toEpochSeconds + k * 60)

/-- Python `dt + timedelta(days=k)`. -/
def pyAddDays (dt : PyDateTime) (k : Int) : PyDateTime :=
  pyOfEpochSeconds (dt.toEpochSeconds + k * 86400)

/-- Zero-pad a nonnegative integer to two decimal digits (CPython `%02d`). -/
def pad2 (n : Int) : String :=
  let s := toString n.toNat
  if s.length < 2 then "0" ++ s else s

/-- Zero-pad a nonnegative integer to four decimal digits (CPython `%04d`). -/
def pad4 (n : Int) : String :=
  let s := toString n.toNat
  String.mk (List.replicate (4 - s.length) '0') ++ s

/-- Python `dt.strftime("%Y-%m-%d")`. -/
def fmtYmd (dt : PyDateTime) : String :=
  pad4 dt.year ++ "-" ++ pad2 dt.month ++ "-" ++ pad2 dt.day

/-- Python `dt.isoformat()` for datetimes with zero microseconds. -/
def pyIsoformat (dt : PyDateTime) : String :=
  fmtYmd dt ++ "T" ++ pad2 dt.hour ++ ":" ++ pad2 dt.minute ++ ":" ++ pad2 dt.second

/-- Is the year a Gregorian leap year (CPython `calendar.isleap`)? -/
def isLeapYear (y : Nat) : Bool :=
  (y % 4 = 0 && y % 100 ≠ 0) || y % 400 = 0

/-- Number of days in the given month of the given year. -/
def daysInMonth (y m : Nat) : Nat :=
  if m = 2 then (if isLeapYear y then 29 else 28)
  else if m = 4 ∨ m = 6 ∨ m = 9 ∨ m = 11 then 30
  else 31

/-- Two decimal digit characters to a number. -/
def d2 (a b : Char) : Option Nat :=
  if a.isDigit && b.isDigit then some ((a.toNat - 48) * 10 + (b.toNat - 48)) else none

/-- Four decimal digit characters to a number. -/
def d4 (a b c d : Char) : Option Nat :=
  match d2 a b, d2 c d with
  | some hi, some lo => some (hi * 100 + lo)
  | _, _ => none

/-- Range-check the components and build a `PyDateTime` (the checks CPython
performs when constructing a `datetime`). -/
def mkDT (y m d hh mm ss : Nat) : Option PyDateTime :=
  if 1 ≤ y ∧ y ≤ 9999 ∧ 1 ≤ m ∧ m ≤ 12 ∧ 1 ≤ d ∧ d ≤ daysInMonth y m ∧
      hh ≤ 23 ∧ mm ≤ 59 ∧ ss ≤ 59 then
    some ⟨(y : Int), (m : Int), (d : Int), (hh : Int), (mm : Int), (ss : Int)⟩
  else none

/-- Python `datetime.fromisoformat` (CPython ≤ 3.10 grammar: a fully padded
`YYYY-MM-DD`, optionally followed by one separator character and a padded
`HH`, `HH:MM` or `HH:MM:SS` time; no fraction or offset, which never occur in
the strings this repository builds).  Returns `none` where CPython raises
`ValueError`. -/
def pyFromIsoformat (s : String) : Option PyDateTime :=
  match s.toList with
  | [y1, y2, y3, y4, '-', m1, m2, '-', a1, a2] =>
    match d4 y1 y2 y3 y4, d2 m1 m2, d2 a1 a2 with
    | some y, some m, some d => mkDT y m d 0 0 0
    | _, _, _ => none
  | [y1, y2, y3, y4, '-', m1, m2, '-', a1, a2, _, h1, h2] =>
    match d4 y1 y2 y3 y4, d2 m1 m2, d2 a1 a2, d2 h1 h2 with
    | some y, some m, some d, some hh => mkDT y m d hh 0 0
    | _, _, _, _ => none
  | [y1, y2, y3, y4, '-', m1, m2, '-', a1, a2, _, h1, h2, ':', n1, n2] =>
    match d4 y1 y2 y3 y4, d2 m1 m2, d2 a1 a2, d2 h1 h2, d2 n1 n2 with
    | some y, some m, some d, some hh, some mm => mkDT y m d hh mm 0
    | _, _, _, _, _ => none
  | [y1, y2, y3, y4, '-', m1, m2, '-', a1, a2, _, h1, h2, ':', n1, n2, ':', s1, s2] =>
    match d4 y1 y2 y3 y4, d2 m1 m2, d2 a1 a2, d2 h1 h2, d2 n1 n2, d2 s1 s2 with
    | some y, some m, some d, some hh, some mm, some ss => mkDT y m d hh mm ss
    | _, _, _, _, _, _ => none
  | _ => none

/-- Python truthiness of an optional string (`None` and `""` are falsy). -/
def truthyStr : Option String → Bool
  | none => false
  | some s => s ≠ ""

/-- Python `str.lower()` (ASCII; the classifier tags are ASCII). -/
def pyLower (s : String) : String :=
  String.mk (s.data.map Char.toLower)

/-- Python `str.upper()` (ASCII). -/
def pyUpper (s : String) : String :=
  String.mk (s.data.map Char.toUpper)

/-- Python `s[:n]` (slice of the first `n` code points). -/
def pyTake (s : String) (n : Nat) : String :=
  String.mk (s.data.take n)

/-- Is the character in Python's `str.strip()` whitespace set
(tab, LF, VT, FF, CR, space)? -/
def pyIsSpace (c : Char) : Bool :=
  c.toNat = 9 || c.toNat = 10 || c.toNat = 11 || c.toNat = 12 || c.toNat = 13 ||
    c.toNat = 32

/-- Python `str.strip()`: drop leading and trailing whitespace. -/
def pyStrip (s : String) : String :=
  String.mk (((s.data.dropWhile pyIsSpace).reverse.dropWhile pyIsSpace).reverse)

/-- Python `c in s` for a single character. -/
def pyContainsChar (s : String) (c : Char) : Bool :=
  s.data.contains c

/-- Python `s.endswith(suffix)`. -/
def pyEndsWith (s suffix : String) : Bool :=
  List.isPrefixOf suffix.data.reverse s.data.reverse

/-- Python `str.split(sep)` for a one-character separator, on char lists. -/
def splitChar (sep : Char) : List Char → List (List Char)
  | [] => [[]]
  | c :: cs =>
    match splitChar sep cs with
    | [] => [[]]
    | g :: gs => if c = sep then [] :: g :: gs else (c :: g) :: gs

/-- Are all characters decimal digits (and is the list non-empty)? -/
def allDigits (l : List Char) : Bool :=
  !l.isEmpty && l.all Char.isDigit

/-- Numeric value of a list of decimal digit characters. -/
def digitsVal (l : List Char) : Nat :=
  l.foldl (fun a c => a * 10 + (c.toNat - 48)) 0

end Assistant

namespace Assistant

/-- The per-email result record built by `record_result_node`
(`email_agent.py`). -/
structure ProcessedResult where
  index : Nat
  sender : String
  subject : String
  needs_reply : Bool
  reply_reason : String
  draft_id : Option String
  calendar_action : String
  calendar_event_id : Option String
  conflict_detected : Bool
deriving DecidableEq, Repr

/-- The LangGraph `AgentState` (`email_agent.py`).  `processed_results` is the
`operator.add`-annotated accumulator: a node that returns a list for this key
has it appended, never overwritten. -/
structure AgentState where
  emails : List Email
  current_index : Nat
  current_email : Option Email
  summary : String
  needs_reply : Bool
  reply_reason : String
  draft_body : String
  draft_id : Option String
  calendar_action : String
  calendar_details : CalendarDetails
  calendar_event_id : Option String
  conflict_detected : Bool
  processed_results : List ProcessedResult
deriving DecidableEq, Repr

/-- Configuration (from `.env`) together with the external collaborators,
modelled as oracle functions.  `classify` abstracts the LLM call plus the
fence-stripping and `json.loads` of `summarize_email_node`; `draftLlm`
abstracts the LLM call of `draft_reply_node` (arguments: the email, the
analysis summary and the calendar note that feed its prompt); `insertEvent`
is `service.events().insert(...).execute()` where `none` stands for a raised
`HttpError`; `freebusyBusy` is the freebusy query of `check_conflicts`
(`none` = `HttpError`); `draftsCreate` is `service.users().drafts().create`
in `save_draft` (`none` = `HttpError`); `now` is the value of
`datetime.now()` during the run. -/
structure Env where
  maxEmails : Nat
  timezone : String
  defaultMeetingDuration : Int
  now : PyDateTime
  fetchUnread : Nat → List Email
  classify : Email → ClassifierResponse
  draftLlm : Email → String → String → String
  insertEvent : EventBody → Option CalEvent
  freebusyBusy : String → String → Option (List BusySlot)
  draftsCreate : String → String → String → Option String → Option String

/-- `create_event` (`calendar_utils.py`): builds the event body and calls the
Calendar API, returning the created event or `None` on a caught `HttpError`.
The returned log records the attempted call. -/
def create_event (env : Env) (title start_time end_time description attendee_email : String)
    (reminder_minutes : Int) (timezone : String) : Option CalEvent × List ExtCall :=
  let body : EventBody :=
    { summary := title
      description := description
      start_dateTime := start_time
      end_dateTime := end_time
      timeZone := timezone
      reminder_email_minutes := reminder_minutes
      reminder_popup_minutes := 10
      attendees := if attendee_email ≠ "" then [attendee_email] else []
      sendUpdates := if attendee_email ≠ "" then "all" else "none" }
  (env.insertEvent body,
   [ExtCall.createEvent title start_time end_time description attendee_email
      reminder_minutes timezone])

/-- `create_reminder` (`calendar_utils.py`): a reminder is a 15-minute event
block starting at `remind_at`, with a zero-offset reminder.  The
`datetime.fromisoformat(remind_at)` call is not guarded, so an unparseable
string raises (modelled as `Except.error`). -/
def create_reminder (env : Env) (title remind_at description timezone : String) :
    Except String (Option CalEvent × List ExtCall) :=
  match pyFromIsoformat remind_at with
  | none => Except.error ("ValueError: invalid isoformat string " ++ remind_at)
  | some start =>
    let e := pyAddMinutes start 15
    Except.ok (create_event env ("🔔 Reminder: " ++ title) (pyIsoformat start)
      (pyIsoformat e) description "" 0 timezone)

/-- `check_conflicts` (`calendar_utils.py`): freebusy query over the proposed
window; a caught `HttpError` degrades to the empty list. -/
def check_conflicts (env : Env) (start_time end_time : String) :
    List BusySlot × List ExtCall :=
  let timeMin := if pyEndsWith start_time "Z" then start_time else start_time ++ "Z"
  let timeMax := if pyEndsWith end_time "Z" then end_time else end_time ++ "Z"
  match env.freebusyBusy timeMin timeMax with
  | some busy => (busy, [ExtCall.checkConflicts timeMin timeMax])
  | none => ([], [ExtCall.checkConflicts timeMin timeMax])

/-- `save_draft` (`gmail_utils.py`): saves a draft, returning its id, or
`None` on a caught `HttpError`; the thread id is attached only when truthy. -/
def save_draft (env : Env) (recipient subject body : String) (thread_id : Option String) :
    Option String × List ExtCall :=
  let tid := match thread_id with
    | some t => if t = "" then none else some t
    | none => none
  (env.draftsCreate recipient subject body tid,
   [ExtCall.saveDraft recipient subject body tid])

/-- The fallback judgment `summarize_email_node` substitutes when parsing the
classifier output raises: the raw content truncated to 300 characters as
summary, reply not needed, calendar action `none`, empty details. -/
def fallbackData (content : String) : ClassifierData :=
  { summary := some (pyTake content 300)
    sender_intent := none
    key_points := none
    action_required := none
    urgency := none
    reply_needed := some false
    reply_reason := some "Parse error"
    calendar_action := some "none"
    calendar_details := some emptyDetails }

/-- Python `'YES' if b else 'NO'` over an optional (possibly missing) flag. -/
def yesNo : Option Bool → String
  | some true => "YES"
  | _ => "NO"

/-- The `summary_text` f-string assembled by `summarize_email_node`. -/
def mkSummaryText (data : ClassifierData) : String :=
  "SUMMARY: " ++ data.summary.getD "" ++
  "\nSENDER_INTENT: " ++ data.sender_intent.getD "" ++
  "\nKEY_POINTS: " ++ String.intercalate ", " (data.key_points.getD []) ++
  "\nACTION_REQUIRED: " ++ yesNo data.action_required ++
  "\nURGENCY: " ++ data.urgency.getD "LOW" ++
  "\nREPLY_NEEDED: " ++ yesNo data.reply_needed ++
  "\nREPLY_REASON: " ++ data.reply_reason.getD "" ++
  "\nCALENDAR_ACTION: " ++ pyUpper (data.calendar_action.getD "none")

/-- NODE 1, `fetch_emails_node`: fetch unread emails, reset the index.  Both
the empty and the non-empty branch return the same state update; the
`processed_results: []` value appends nothing under the `operator.add`
reducer. -/
def fetch_emails_node (env : Env) (st : AgentState) : AgentState :=
  let emails := env.fetchUnread env.maxEmails
  { st with emails := emails, current_index := 0 }

/-- NODE 2, `load_next_email_node`: load the email at `current_index`, or
clear `current_email` when the list is exhausted. -/
def load_next_email_node (st : AgentState) : AgentState :=
  if st.current_index ≥ st.emails.length then { st with current_email := none }
  else { st with current_email := st.emails.get? st.current_index }

/-- NODE 3, `summarize_email_node`: run the classifier, substitute the
fallback judgment on a parse error, normalize `calendar_action` to one of
`meeting`/`reminder`/`none` (lower-cased, anything else becomes `none`). -/
def summarize_email_node (env : Env) (st : AgentState) : AgentState :=
  match st.current_email with
  | none =>
    { st with summary := "", needs_reply := false, reply_reason := ""
              calendar_action := "none", calendar_details := emptyDetails }
  | some email =>
    let data := match env.classify email with
      | ClassifierResponse.parsed d => d
      | ClassifierResponse.unparseable content => fallbackData content
    let summary_text := mkSummaryText data
    let cal_action0 := pyLower (data.calendar_action.getD "none")
    let cal_action :=
      if cal_action0 = "meeting" ∨ cal_action0 = "reminder" then cal_action0 else "none"
    { st with summary := summary_text
              needs_reply := data.reply_needed.getD false
              reply_reason := data.reply_reason.getD ""
              calendar_action := cal_action
              calendar_details := data.calendar_details.getD emptyDetails }

/-- The `date_str` that `calendar_action_node` ends up with after its
tomorrow-at-10:00 defaulting. -/
def resolvedDateStr (env : Env) (details : CalendarDetails) : String :=
  if details.date.getD "" = "" ∨ details.time.getD "" = "" then
    fmtYmd (pyAddDays env.now 1)
  else details.date.getD ""

/-- The `time_str` that `calendar_action_node` ends up with after its
tomorrow-at-10:00 defaulting. -/
def resolvedTimeStr (env : Env) (details : CalendarDetails) : String :=
  if details.date.getD "" = "" ∨ details.time.getD "" = "" then "10:00"
  else details.time.getD ""

/-- The `start_dt` string `f"{date_str}T{time_str}:00"` of
`calendar_action_node`. -/
def resolvedStart (env : Env) (details : CalendarDetails) : String :=
  resolvedDateStr env details ++ "T" ++ resolvedTimeStr env details ++ ":00"

/-- The `title` of `calendar_action_node`
(`details.get("title", "") or email["subject"]`). -/
def resolvedTitle (details : CalendarDetails) (email : Email) : String :=
  if details.title.getD "" ≠ "" then details.title.getD "" else email.subject

/-- The `description` of `calendar_action_node`. -/
def resolvedDescription (details : CalendarDetails) (email : Email) : String :=
  if details.description.getD "" ≠ "" then details.description.getD ""
  else "From: " ++ email.sender ++ "\nSubject: " ++ email.subject

/-- The state update computed by `calendar_action_node`: the values of the
two keys of its returned dict, `calendar_event_id` and `conflict_detected`,
together with the external calls made.  An action of `none` (or an empty
details dict) skips everything; an unparseable `start_dt` raises
(`datetime.fromisoformat` is unguarded). -/
def calendar_action_update (env : Env) (st : AgentState) :
    Except String ((Option String × Bool) × List ExtCall) :=
  let action := st.calendar_action
  let details := st.calendar_details
  if action = "none" ∨ details.isEmpty then
    Except.ok ((none, false), [])
  else
    match st.current_email with
    | none => Except.error "TypeError: NoneType is not subscriptable"
    | some email =>
      let title := resolvedTitle details email
      let description := resolvedDescription details email
      let duration := details.duration_minutes.getD env.defaultMeetingDuration
      let attendee := details.attendee_email.getD ""
      let start_dt := resolvedStart env details
      match pyFromIsoformat start_dt with
      | none => Except.error ("ValueError: invalid isoformat string " ++ start_dt)
      | some sdt =>
        let end_dt := pyIsoformat (pyAddMinutes sdt duration)
        if action = "meeting" then
          let cres := check_conflicts env start_dt end_dt
          let conflict_detected := !cres.1.isEmpty
          let eres := create_event env title start_dt end_dt description attendee 30 env.timezone
          Except.ok ((Option.bind eres.1 CalEvent.id, conflict_detected), cres.2 ++ eres.2)
        else if action = "reminder" then
          match create_reminder env title start_dt description env.timezone with
          | Except.error e => Except.error e
          | Except.ok rres =>
            Except.ok ((Option.bind rres.1 CalEvent.id, false), rres.2)
        else
          Except.ok ((none, false), [])

/-- NODE 4, `calendar_action_node`: create a calendar event or reminder,
checking meetings for conflicts first; the returned dict
`{"calendar_event_id": ..., "conflict_detected": ...}` is merged into the
state. -/
def calendar_action_node (env : Env) (st : AgentState) :
    Except String (AgentState × List ExtCall) :=
  match calendar_action_update env st with
  | Except.error e => Except.error e
  | Except.ok ((eid, cf), calls) =>
    Except.ok ({ st with calendar_event_id := eid, conflict_detected := cf }, calls)

/-- NODE 5, `draft_reply_node`: draft a reply via the LLM.  Reading
`email['sender']` with no current email would raise a `TypeError`. -/
def draft_reply_node (env : Env) (st : AgentState) : Except String AgentState :=
  match st.current_email with
  | none => Except.error "TypeError: NoneType is not subscriptable"
  | some email =>
    let event_id := st.calendar_event_id
    let calendar_note :=
      if truthyStr event_id && (st.calendar_action = "meeting") then
        "Note: A calendar invite has been created for this meeting."
      else if truthyStr event_id && (st.calendar_action = "reminder") then
        "Note: A reminder has been set in the calendar."
      else ""
    Except.ok { st with draft_body := pyStrip (env.draftLlm email st.summary calendar_note) }

/-- NODE 6, `save_draft_node`: save the drafted reply to Gmail Drafts.  An
empty draft body returns early with no draft id; otherwise the draft is saved
for the current email (reading it with no current email would raise). -/
def save_draft_node (env : Env) (st : AgentState) :
    Except String (AgentState × List ExtCall) :=
  if st.draft_body = "" then Except.ok ({ st with draft_id := none }, [])
  else
    match st.current_email with
    | none => Except.error "TypeError: NoneType is not subscriptable"
    | some email =>
      let r := save_draft env email.sender_email ("Re: " ++ email.subject)
        st.draft_body (some email.thread_id)
      Except.ok ({ st with draft_id := r.1 }, r.2)

/-- The result record `record_result_node` snapshots from the state.  When
the current email is absent the sender/subject default to `""` (the `{}`
default of `state.get("current_email", {})`). -/
def recordOf (st : AgentState) : ProcessedResult :=
  { index := st.current_index + 1
    sender := match st.current_email with | some e => e.sender | none => ""
    subject := match st.current_email with | some e => e.subject | none => ""
    needs_reply := st.needs_reply
    reply_reason := st.reply_reason
    draft_id := st.draft_id
    calendar_action := st.calendar_action
    calendar_event_id := st.calendar_event_id
    conflict_detected := st.conflict_detected }

/-- NODE 7, `record_result_node`: append the snapshot to the accumulator
(`operator.add` reducer), advance the index and clear all per-email scratch
fields. -/
def record_result_node (st : AgentState) : AgentState :=
  { st with processed_results := st.processed_results ++ [recordOf st]
            current_index := st.current_index + 1
            current_email := none
            summary := ""
            needs_reply := false
            reply_reason := ""
            draft_body := ""
            draft_id := none
            calendar_action := "none"
            calendar_details := emptyDetails
            calendar_event_id := none
            conflict_detected := false }

/-- NODE 8, `print_digest_node`: prints the digest and returns `{}`, leaving
the state unchanged. -/
def print_digest_node (st : AgentState) : AgentState := st

/-- The `drafts_saved` filter of `print_digest_node` (Python truthiness of
`r.get("draft_id")`). -/
def drafts_saved (results : List ProcessedResult) : List ProcessedResult :=
  results.filter (fun r => truthyStr r.draft_id)

/-- The `events_created` filter of `print_digest_node`. -/
def events_created (results : List ProcessedResult) : List ProcessedResult :=
  results.filter (fun r => truthyStr r.calendar_event_id)

/-- The `conflicts` filter of `print_digest_node`. -/
def conflicts_found (results : List ProcessedResult) : List ProcessedResult :=
  results.filter (fun r => r.conflict_detected)

/-- `route_after_fetch`: truthiness of the fetched email list. -/
def route_after_fetch (st : AgentState) : String :=
  if st.emails ≠ [] then "load_next" else "digest"

/-- `route_after_load`: truthiness of `current_email`. -/
def route_after_load (st : AgentState) : String :=
  if st.current_email.isSome then "summarize" else "digest"

/-- `route_after_summarize`: calendar action first, then the reply flag. -/
def route_after_summarize (st : AgentState) : String :=
  if st.calendar_action ≠ "none" then "calendar"
  else if st.needs_reply then "draft"
  else "record"

/-- `route_after_calendar`. -/
def route_after_calendar (st : AgentState) : String :=
  if st.needs_reply then "draft" else "record"

/-- `route_after_record`. -/
def route_after_record (st : AgentState) : String :=
  if st.current_index < st.emails.length then "load_next" else "digest"

/-- Process one loaded email, following the compiled graph from the
`summarize` node through the conditional edges down to `record`:
`summarize → (calendar?) → (draft → save_draft?) → record`. -/
def processLoadedEmail (env : Env) (st1 : AgentState) :
    Except String (AgentState × List ExtCall) :=
  let st2 := summarize_email_node env st1
  let calStep : Except String (AgentState × List ExtCall) :=
    if route_after_summarize st2 = "calendar" then calendar_action_node env st2
    else Except.ok (st2, [])
  match calStep with
  | Except.error e => Except.error e
  | Except.ok (st3, calls1) =>
    let goDraft :=
      if route_after_summarize st2 = "calendar" then route_after_calendar st3 = "draft"
      else route_after_summarize st2 = "draft"
    let draftStep : Except String (AgentState × List ExtCall) :=
      if goDraft then
        match draft_reply_node env st3 with
        | Except.error e => Except.error e
        | Except.ok st3d => save_draft_node env st3d
      else Except.ok (st3, [])
    match draftStep with
    | Except.error e => Except.error e
    | Except.ok (st4, calls2) =>
      Except.ok (record_result_node st4, calls1 ++ calls2)

/-- The controller loop from the `load_next` node: load, process, and repeat
while `route_after_record` sends control back to `load_next`.  The fuel
argument only ensures termination; `runAgent` supplies enough of it. -/
def runFromLoad (env : Env) : Nat → AgentState → Except String (AgentState × List ExtCall)
  | 0, _ => Except.error "recursion limit"
  | fuel + 1, st =>
    let st1 := load_next_email_node st
    if route_after_load st1 = "summarize" then
      match processLoadedEmail env st1 with
      | Except.error e => Except.error e
      | Except.ok (st5, callsA) =>
        if route_after_record st5 = "load_next" then
          match runFromLoad env fuel st5 with
          | Except.error e => Except.error e
          | Except.ok (stF, callsB) => Except.ok (stF, callsA ++ callsB)
        else Except.ok (print_digest_node st5, callsA)
    else Except.ok (print_digest_node st1, [])

/-- The initial state passed to `agent.invoke` in the entrypoint. -/
def initialState : AgentState :=
  { emails := [], current_index := 0, current_email := none, summary := ""
    needs_reply := false, reply_reason := "", draft_body := "", draft_id := none
    calendar_action := "none", calendar_details := emptyDetails
    calendar_event_id := none, conflict_detected := false, processed_results := [] }

/-- One full run of the compiled graph: `fetch`, then either straight to
`digest` (no emails) or into the per-email loop. -/
def runAgent (env : Env) : Except String (AgentState × List ExtCall) :=
  let st1 := fetch_emails_node env initialState
  if route_after_fetch st1 = "load_next" then
    runFromLoad env (st1.emails.length + 1) st1
  else Except.ok (print_digest_node st1, [])

end Assistant

namespace Assistant

/-- The request body of `POST /api/confirm-calendar` (`server.py`). -/
structure CalendarConfirmRequest where
  action : String
  title : String
  date : String
  time : String
  duration_minutes : Int
  description : String
  attendee_email : String
  email_id : String
deriving DecidableEq, Repr

/-- Outcome of an endpoint: a JSON success payload or an `HTTPException`
with its status code and detail message. -/
inductive ApiResult where
  | ok (event_id : Option String) (event_link : String) (title start : String)
  | httpError (status : Nat) (detail : String)
deriving DecidableEq, Repr

/-- Does a string pass Python `datetime.strptime(s, "%Y-%m-%d")`?  CPython
(`Lib/_strptime.py`, TimeRE) compiles this format to the full-string regex
`(?P<Y>\d\d\d\d)-(?P<m>1[0-2]|0[1-9]|[1-9])-(?P<d>3[01]|[12]\d|0[1-9]|[1-9]| [1-9])`
— the year exactly four digits, the month one or two digits valued 1-12, the
day either one or two digits or a space followed by a nonzero digit — and
then validates the values by constructing a `datetime` (year at least 1, day
within the month).  Digits are modelled as ASCII. -/
def strptimeYmdOk (s : String) : Bool :=
  match splitChar '-' s.data with
  | [ys, ms, ds] =>
    allDigits ys && ys.length = 4 &&
    allDigits ms && ms.length ≤ 2 &&
    (allDigits ds && ds.length ≤ 2 ||
      (match ds with
       | [' ', c] => c.isDigit && c ≠ '0'
       | _ => false)) &&
    (let y := digitsVal ys
     let m := digitsVal ms
     let d := digitsVal (ds.dropWhile (fun c => c = ' '))
     1 ≤ y && 1 ≤ m && m ≤ 12 && 1 ≤ d && d ≤ daysInMonth y m)
  | _ => false

/-- Does a string pass Python `datetime.strptime(s, "%H:%M")`?  CPython
compiles this format to the full-string regex
`(?P<H>2[0-3]|[0-1]\d|\d):(?P<M>[0-5]\d|\d)` — the hour one or two digits
valued 0-23, the minute one or two digits valued 0-59, no space
alternatives.  Digits are modelled as ASCII. -/
def strptimeHMOk (s : String) : Bool :=
  match splitChar ':' s.data with
  | [hs, ms] =>
    allDigits hs && hs.length ≤ 2 &&
    allDigits ms && ms.length ≤ 2 &&
    (digitsVal hs ≤ 23 && digitsVal ms ≤ 59)
  | _ => false

/-- The date acceptance condition of `confirm_calendar`: the three truthiness
and placeholder guards plus the `strptime` format check on the stripped
value. -/
def confirmDateAccepted (s : String) : Bool :=
  !(s = "" || pyContainsChar s '[' || pyStrip s = "") && strptimeYmdOk (pyStrip s)

/-- The time acceptance condition of `confirm_calendar`. -/
def confirmTimeAccepted (s : String) : Bool :=
  !(s = "" || pyContainsChar s '[' || pyStrip s = "") && strptimeHMOk (pyStrip s)

/-- The `POST /api/confirm-calendar` handler (`server.py`): validate the
user-supplied date and time (rejecting with a 400 before any external call),
then create the event or reminder; a failed creation is a 500, and any other
raised exception (for example `fromisoformat` on a `strptime`-accepted but
unpadded value) is a 500 via the catch-all handler. -/
def confirm_calendar (env : Env) (req : CalendarConfirmRequest) :
    ApiResult × List ExtCall :=
  if req.date = "" || pyContainsChar req.date '[' || pyStrip req.date = "" then
    (ApiResult.httpError 400 "Please enter a valid date (YYYY-MM-DD) before confirming.", [])
  else if req.time = "" || pyContainsChar req.time '[' || pyStrip req.time = "" then
    (ApiResult.httpError 400 "Please enter a valid time (HH:MM) before confirming.", [])
  else if !strptimeYmdOk (pyStrip req.date) then
    (ApiResult.httpError 400
      ("Invalid date format " ++ req.date ++ ". Please use YYYY-MM-DD (e.g. 2026-03-15)."), [])
  else if !strptimeHMOk (pyStrip req.time) then
    (ApiResult.httpError 400
      ("Invalid time format " ++ req.time ++ ". Please use HH:MM (e.g. 14:30)."), [])
  else
    let start_dt := pyStrip req.date ++ "T" ++ pyStrip req.time ++ ":00"
    match pyFromIsoformat start_dt with
    | none => (ApiResult.httpError 500 ("ValueError: invalid isoformat string " ++ start_dt), [])
    | some sdt =>
      let end_dt := pyIsoformat (pyAddMinutes sdt req.duration_minutes)
      if req.action = "meeting" then
        let r := create_event env req.title start_dt end_dt req.description
          req.attendee_email 30 env.timezone
        match r.1 with
        | none => (ApiResult.httpError 500 "Failed to create calendar event", r.2)
        | some ev => (ApiResult.ok ev.id (ev.htmlLink.getD "") req.title start_dt, r.2)
      else if req.action = "reminder" then
        match create_reminder env req.title start_dt req.description env.timezone with
        | Except.error e => (ApiResult.httpError 500 e, [])
        | Except.ok r =>
          match r.1 with
          | none => (ApiResult.httpError 500 "Failed to create calendar event", r.2)
          | some ev => (ApiResult.ok ev.id (ev.htmlLink.getD "") req.title start_dt, r.2)
      else (ApiResult.httpError 400 "Invalid action type", [])

end Assistant

namespace Assistant

/-- The `end_dt` string of `calendar_action_node`
(`isoformat(fromisoformat(start_dt) + timedelta(minutes=duration))`). -/
def resolvedEnd (env : Env) (details : CalendarDetails) (sdt : PyDateTime) : String :=
  pyIsoformat (pyAddMinutes sdt (details.duration_minutes.getD env.defaultMeetingDuration))

/-- Concrete email used by the witnesses. -/
def emailW1 : Email :=
  { id := "m1", thread_id := "t1", sender := "Alice A <alice@example.com>"
    sender_email := "alice@example.com", subject := "Project sync", date := "Mon"
    body := "Shall we meet?", snippet := "snip1" }

/-- Second concrete email used by the witnesses. -/
def emailW2 : Email :=
  { id := "m2", thread_id := "t2", sender := "Bob B <bob@example.com>"
    sender_email := "bob@example.com", subject := "FYI", date := "Tue"
    body := "No action needed", snippet := "snip2" }

/-- Concrete extracted calendar details with an explicit date and time. -/
def detailsW : CalendarDetails :=
  { title := some "Sync", date := some "2026-03-20", time := some "14:00"
    duration_minutes := some 30, description := some ""
    attendee_email := some "alice@example.com" }

/-- Classifier output tagging a meeting with full details. -/
def dataMeetingW : ClassifierData :=
  { summary := some "Meeting request", sender_intent := some "wants a meeting"
    key_points := some ["p1"], action_required := some true, urgency := some "HIGH"
    reply_needed := some true, reply_reason := some "needs an answer"
    calendar_action := some "meeting", calendar_details := some detailsW }

/-- Classifier output tagging no calendar action and no reply. -/
def dataNoneW : ClassifierData :=
  { summary := some "Info", sender_intent := some "FYI", key_points := some []
    action_required := some false, urgency := some "LOW", reply_needed := some false
    reply_reason := some "no reply needed", calendar_action := some "none"
    calendar_details := some emptyDetails }

/-- Concrete environment for the run witnesses: two unread emails, the first
classified as a meeting with a busy conflicting slot, the second as nothing
to do; all external calls succeed. -/
def envW : Env :=
  { maxEmails := 10
    timezone := "Asia/Kolkata"
    defaultMeetingDuration := 60
    now := ⟨2026, 3, 15, 9, 30, 0⟩
    fetchUnread := fun _ => [emailW1, emailW2]
    classify := fun e =>
      if e.id = "m1" then ClassifierResponse.parsed dataMeetingW
      else ClassifierResponse.parsed dataNoneW
    draftLlm := fun _ _ _ => "Sure, see you then."
    insertEvent := fun _ => some ⟨some "EVT1", some "link1"⟩
    freebusyBusy := fun _ _ => some [⟨"2026-03-20T13:30:00Z", "2026-03-20T14:30:00Z"⟩]
    draftsCreate := fun _ _ _ _ => some "DRAFT1" }

/-- The witness run. -/
def runAgentW : Except String (AgentState × List ExtCall) := runAgent envW

/-- Final state of the witness run. -/
def stFW : AgentState :=
  match runAgentW with
  | Except.ok p => p.1
  | Except.error _ => initialState

/-- External-call log of the witness run. -/
def callsW : List ExtCall :=
  match runAgentW with
  | Except.ok p => p.2
  | Except.error _ => []

/-- Environment whose event insertion always fails with an `HttpError`
(used to exhibit a conflicted meeting whose creation fails). -/
def envC4 : Env :=
  { envW with fetchUnread := fun _ => [emailW1], insertEvent := fun _ => none }

/-- The failed-creation run. -/
def runC4 : Except String (AgentState × List ExtCall) := runAgent envC4

/-- Final state of the failed-creation run. -/
def stC4F : AgentState :=
  match runC4 with
  | Except.ok p => p.1
  | Except.error _ => initialState

/-- External-call log of the failed-creation run. -/
def callsC4F : List ExtCall :=
  match runC4 with
  | Except.ok p => p.2
  | Except.error _ => []

/-- State sitting at the calendar node with a meeting classification and
full details (C3 witness input). -/
def stC3 : AgentState :=
  { initialState with current_email := some emailW1, calendar_action := "meeting"
                      calendar_details := detailsW }

/-- Meeting details with present-but-empty date/time and an extracted
30-minute duration. -/
def detailsMissingW : CalendarDetails :=
  { title := some "Standup", date := some "", time := some ""
    duration_minutes := some 30, description := some "", attendee_email := some "" }

/-- State at the calendar node: meeting classification, missing date/time,
extracted duration 30. -/
def stC5m : AgentState :=
  { initialState with current_email := some emailW1, calendar_action := "meeting"
                      calendar_details := detailsMissingW }

/-- Reminder details with present-but-empty date/time and no duration key. -/
def detailsReminderW : CalendarDetails :=
  { title := some "Pay bills", date := some "", time := some ""
    duration_minutes := none, description := some "", attendee_email := some "" }

/-- State at the calendar node: reminder classification, missing date/time. -/
def stC5r : AgentState :=
  { initialState with current_email := some emailW1, calendar_action := "reminder"
                      calendar_details := detailsReminderW }

/-- Environment whose classifier output never parses as JSON. -/
def envC6 : Env :=
  { envW with classify := fun _ => ClassifierResponse.unparseable "this is not JSON" }

/-- State with a loaded email (C6/C9 witness input). -/
def stC6 : AgentState := { initialState with current_email := some emailW1 }

/-- A confirm-calendar request whose date is placeholder text. -/
def reqC8 : CalendarConfirmRequest :=
  { action := "meeting", title := "Standup", date := "[DATE]", time := "14:00"
    duration_minutes := 60, description := "", attendee_email := "", email_id := "" }

/-- Classifier output tagging a meeting but returning an empty details
dict. -/
def dataC9 : ClassifierData :=
  { summary := some "mtg", sender_intent := none, key_points := none
    action_required := none, urgency := none, reply_needed := some true
    reply_reason := some "", calendar_action := some "meeting"
    calendar_details := some emptyDetails }

/-- Environment whose classifier tags a meeting with an empty details dict. -/
def envC9 : Env :=
  { envW with classify := fun _ => ClassifierResponse.parsed dataC9 }

/-- Processing the loaded email under `envC9`. -/
def procC9 : Except String (AgentState × List ExtCall) := processLoadedEmail envC9 stC6

/-- Resulting state of the `envC9` processing. -/
def stC9out : AgentState :=
  match procC9 with
  | Except.ok p => p.1
  | Except.error _ => initialState

/-- Call log of the `envC9` processing. -/
def callsC9out : List ExtCall :=
  match procC9 with
  | Except.ok p => p.2
  | Except.error _ => []

end Assistant

-- sanity checks on the date arithmetic (kept as compiled facts)
example : Assistant.pyAddDays ⟨2026, 3, 15, 9, 30, 0⟩ 1 = ⟨2026, 3, 16, 9, 30, 0⟩ := by decide
example : Assistant.pyAddDays ⟨2024, 2, 28, 23, 0, 0⟩ 1 = ⟨2024, 2, 29, 23, 0, 0⟩ := by decide
example : Assistant.pyAddMinutes ⟨2026, 12, 31, 23, 30, 0⟩ 45 = ⟨2027, 1, 1, 0, 15, 0⟩ := by decide
example : Assistant.pyIsoformat ⟨2026, 3, 16, 10, 0, 0⟩ = "2026-03-16T10:00:00" := by decide
example : Assistant.pyFromIsoformat "2026-03-16T10:00:00" = some ⟨2026, 3, 16, 10, 0, 0⟩ := by decide
example : Assistant.pyFromIsoformat "2026-03-16" = some ⟨2026, 3, 16, 0, 0, 0⟩ := by decide
example : Assistant.pyFromIsoformat "2026-13-16T10:00:00" = none := by decide
example : Assistant.pyFromIsoformat "banana" = none := by decide

-- pins of the strptime model against CPython behaviour
example : Assistant.strptimeYmdOk "2026-03-15" = true := by decide
example : Assistant.strptimeYmdOk "2026-3-5" = true := by decide
example : Assistant.strptimeYmdOk "2026-03- 5" = true := by decide
example : Assistant.strptimeYmdOk "26-03-15" = false := by decide
example : Assistant.strptimeYmdOk "999-01-01" = false := by decide
example : Assistant.strptimeYmdOk "0000-01-01" = false := by decide
example : Assistant.strptimeYmdOk "2026-02-30" = false := by decide
example : Assistant.strptimeYmdOk "2026-03- 0" = false := by decide
example : Assistant.strptimeYmdOk "2026- 3-15" = false := by decide
example : Assistant.strptimeHMOk "14:30" = true := by decide
example : Assistant.strptimeHMOk "9:5" = true := by decide
example : Assistant.strptimeHMOk "24:00" = false := by decide
example : Assistant.strptimeHMOk " 9:30" = false := by decide

namespace Assistant

theorem summarize_frame (env : Env) (st : AgentState) :
    (summarize_email_node env st).emails = st.emails ∧
    (summarize_email_node env st).current_index = st.current_index ∧
    (summarize_email_node env st).current_email = st.current_email ∧
    (summarize_email_node env st).processed_results = st.processed_results ∧
    (summarize_email_node env st).draft_id = st.draft_id ∧
    (summarize_email_node env st).calendar_event_id = st.calendar_event_id ∧
    (summarize_email_node env st).draft_body = st.draft_body ∧
    (summarize_email_node env st).conflict_detected = st.conflict_detected := by
  cases h : st.current_email <;> simp [summarize_email_node, h]

theorem summarize_action_mem (env : Env) (st : AgentState) :
    (summarize_email_node env st).calendar_action = "meeting" ∨
    (summarize_email_node env st).calendar_action = "reminder" ∨
    (summarize_email_node env st).calendar_action = "none" := by
  cases h : st.current_email with
  | none => right; right; simp [summarize_email_node, h]
  | some email =>
    simp only [summarize_email_node, h]
    split
    · rename_i hmem
      rcases hmem with h1 | h2
      · left; exact h1
      · right; left; exact h2
    · right; right; rfl

theorem calendar_ok_frame (env : Env) (st st' : AgentState) (calls : List ExtCall)
    (h : calendar_action_node env st = Except.ok (st', calls)) :
    st'.emails = st.emails ∧
    st'.current_index = st.current_index ∧
    st'.current_email = st.current_email ∧
    st'.processed_results = st.processed_results ∧
    st'.draft_id = st.draft_id ∧
    st'.draft_body = st.draft_body ∧
    st'.needs_reply = st.needs_reply ∧
    st'.summary = st.summary ∧
    st'.reply_reason = st.reply_reason ∧
    st'.calendar_action = st.calendar_action ∧
    st'.calendar_details = st.calendar_details := by
  unfold calendar_action_node at h
  split at h
  · exact absurd h (by simp)
  · simp only [Except.ok.injEq, Prod.mk.injEq] at h
    obtain ⟨h1, h2⟩ := h
    subst h1
    simp

theorem draft_ok_frame (env : Env) (st st' : AgentState)
    (h : draft_reply_node env st = Except.ok st') :
    st'.emails = st.emails ∧
    st'.current_index = st.current_index ∧
    st'.current_email = st.current_email ∧
    st'.processed_results = st.processed_results ∧
    st'.draft_id = st.draft_id ∧
    st'.needs_reply = st.needs_reply ∧
    st'.reply_reason = st.reply_reason ∧
    st'.calendar_action = st.calendar_action ∧
    st'.calendar_event_id = st.calendar_event_id ∧
    st'.conflict_detected = st.conflict_detected := by
  unfold draft_reply_node at h
  repeat' split at h
  all_goals simp_all
  all_goals (subst h; simp)

theorem save_ok_frame (env : Env) (st st' : AgentState) (calls : List ExtCall)
    (h : save_draft_node env st = Except.ok (st', calls)) :
    st'.emails = st.emails ∧
    st'.current_index = st.current_index ∧
    st'.current_email = st.current_email ∧
    st'.processed_results = st.processed_results ∧
    st'.needs_reply = st.needs_reply ∧
    st'.reply_reason = st.reply_reason ∧
    st'.calendar_action = st.calendar_action ∧
    st'.calendar_event_id = st.calendar_event_id ∧
    st'.conflict_detected = st.conflict_detected := by
  unfold save_draft_node at h
  repeat' split at h
  all_goals simp_all
  all_goals (obtain ⟨h1, h2⟩ := h; subst h1; simp)

theorem record_fields (st : AgentState) :
    (record_result_node st).processed_results = st.processed_results ++ [recordOf st] ∧
    (record_result_node st).current_index = st.current_index + 1 ∧
    (record_result_node st).emails = st.emails ∧
    (record_result_node st).current_email = none ∧
    (record_result_node st).draft_id = none ∧
    (record_result_node st).calendar_event_id = none ∧
    (record_result_node st).calendar_action = "none" := by
  simp [record_result_node]

end Assistant

namespace Assistant

theorem route_summarize_ne_none (st : AgentState)
    (h : route_after_summarize st = "calendar") : st.calendar_action ≠ "none" := by
  intro hn
  unfold route_after_summarize at h
  rw [if_neg (by simp [hn])] at h
  split at h <;> simp at h

theorem route_summarize_draft_needs (st : AgentState)
    (h : route_after_summarize st = "draft") : st.needs_reply = true := by
  unfold route_after_summarize at h
  split at h
  · simp at h
  · split at h
    · assumption
    · simp at h

theorem route_calendar_draft_needs (st : AgentState)
    (h : route_after_calendar st = "draft") : st.needs_reply = true := by
  unfold route_after_calendar at h
  split at h
  · assumption
  · simp at h

theorem processLoadedEmail_ok (env : Env) (st1 : AgentState) (e : Email)
    (st5 : AgentState) (calls : List ExtCall)
    (he : st1.current_email = some e)
    (hd : st1.draft_id = none) (hc : st1.calendar_event_id = none)
    (hok : processLoadedEmail env st1 = Except.ok (st5, calls)) :
    st5.emails = st1.emails ∧
    st5.current_index = st1.current_index + 1 ∧
    st5.draft_id = none ∧ st5.calendar_event_id = none ∧
    ∃ r, st5.processed_results = st1.processed_results ++ [r] ∧
      r.index = st1.current_index + 1 ∧ r.sender = e.sender ∧ r.subject = e.subject ∧
      (r.calendar_action = "none" → r.calendar_event_id = none) ∧
      (r.needs_reply = false → r.draft_id = none) ∧
      (r.calendar_action = "meeting" ∨ r.calendar_action = "reminder" ∨
        r.calendar_action = "none") := by
  obtain ⟨hsE, hsI, hsC, hsP, hsD, hsK, hsB, hsF⟩ := summarize_frame env st1
  have hsa := summarize_action_mem env st1
  simp only [processLoadedEmail] at hok
  split at hok
  · simp at hok
  next st3 calls1 heq =>
    split at hok
    · simp at hok
    next st4 calls2 heq2 =>
      simp only [Except.ok.injEq, Prod.mk.injEq] at hok
      obtain ⟨h5, hcalls⟩ := hok
      have hcal :
          (route_after_summarize (summarize_email_node env st1) = "calendar" ∧
            calendar_action_node env (summarize_email_node env st1) = Except.ok (st3, calls1)) ∨
          (route_after_summarize (summarize_email_node env st1) ≠ "calendar" ∧
            st3 = summarize_email_node env st1) := by
        split at heq
        · exact Or.inl ⟨by assumption, heq⟩
        · simp only [Except.ok.injEq, Prod.mk.injEq] at heq
          exact Or.inr ⟨by assumption, heq.1.symm⟩
      have hst3 :
          st3.emails = st1.emails ∧ st3.current_index = st1.current_index ∧
          st3.current_email = some e ∧ st3.processed_results = st1.processed_results ∧
          st3.draft_id = none ∧
          st3.needs_reply = (summarize_email_node env st1).needs_reply ∧
          st3.calendar_action = (summarize_email_node env st1).calendar_action ∧
          (st3.calendar_action = "none" → st3.calendar_event_id = none) := by
        rcases hcal with ⟨hr, hnode⟩ | ⟨hr, rfl⟩
        · obtain ⟨a1, a2, a3, a4, a5, a6, a7, a8, a9, a10, a11⟩ :=
            calendar_ok_frame env _ st3 calls1 hnode
          refine ⟨a1.trans hsE, a2.trans hsI, by rw [a3, hsC, he],
            a4.trans hsP, a5.trans (hsD.trans hd), a7, a10, ?_⟩
          intro hn
          exact absurd (a10.symm.trans hn) (route_summarize_ne_none _ hr)
        · exact ⟨hsE, hsI, by rw [hsC, he], hsP, hsD.trans hd, rfl, rfl,
            fun _ => hsK.trans hc⟩
      obtain ⟨h3E, h3I, h3C, h3P, h3D, h3N, h3A, h3Imp⟩ := hst3
      have hleafD : ∀ st3d, draft_reply_node env st3 = Except.ok st3d →
          save_draft_node env st3d = Except.ok (st4, calls2) →
          st3.needs_reply = true →
          st4.emails = st1.emails ∧ st4.current_index = st1.current_index ∧
          st4.current_email = some e ∧ st4.processed_results = st1.processed_results ∧
          st4.needs_reply = st3.needs_reply ∧ st4.calendar_action = st3.calendar_action ∧
          st4.calendar_event_id = st3.calendar_event_id ∧
          (st4.needs_reply = false → st4.draft_id = none) := by
        intro st3d heq3 heq4 hnr
        obtain ⟨b1, b2, b3, b4, b5, b6, b7, b8, b9, b10⟩ := draft_ok_frame env st3 st3d heq3
        obtain ⟨c1, c2, c3, c4, c5, c6, c7, c8, c9⟩ := save_ok_frame env st3d st4 calls2 heq4
        refine ⟨c1.trans (b1.trans h3E), c2.trans (b2.trans h3I),
          (c3.trans b3).trans h3C, c4.trans (b4.trans h3P),
          c5.trans b6, c7.trans b8, c8.trans b9, ?_⟩
        intro hf
        rw [c5.trans b6, hnr] at hf
        exact absurd hf (by simp)
      have hleafN : (Except.ok (st3, []) : Except String (AgentState × List ExtCall)) =
          Except.ok (st4, calls2) →
          st4.emails = st1.emails ∧ st4.current_index = st1.current_index ∧
          st4.current_email = some e ∧ st4.processed_results = st1.processed_results ∧
          st4.needs_reply = st3.needs_reply ∧ st4.calendar_action = st3.calendar_action ∧
          st4.calendar_event_id = st3.calendar_event_id ∧
          (st4.needs_reply = false → st4.draft_id = none) := by
        intro heqq
        simp only [Except.ok.injEq, Prod.mk.injEq] at heqq
        obtain ⟨h43, _⟩ := heqq
        subst h43
        exact ⟨h3E, h3I, h3C, h3P, rfl, rfl, rfl, fun _ => h3D⟩
      have hst4 :
          st4.emails = st1.emails ∧ st4.current_index = st1.current_index ∧
          st4.current_email = some e ∧ st4.processed_results = st1.processed_results ∧
          st4.needs_reply = st3.needs_reply ∧ st4.calendar_action = st3.calendar_action ∧
          st4.calendar_event_id = st3.calendar_event_id ∧
          (st4.needs_reply = false → st4.draft_id = none) := by
        split at heq2
        · split at heq2
          · rename_i hg hp
            split at heq2
            · simp at heq2
            next st3d heq3 =>
              exact hleafD st3d heq3 heq2 (route_calendar_draft_needs st3 hp)
          · exact hleafN heq2
        · split at heq2
          · rename_i hg hp
            split at heq2
            · simp at heq2
            next st3d heq3 =>
              exact hleafD st3d heq3 heq2 (by rw [h3N]; exact route_summarize_draft_needs _ hp)
          · exact hleafN heq2
      obtain ⟨h4E, h4I, h4C, h4P, h4N, h4A, h4K, h4Imp⟩ := hst4
      obtain ⟨rP, rI, rE, rC, rD, rK, rA⟩ := record_fields st4
      subst h5
      refine ⟨rE.trans h4E, by rw [rI, h4I], rD, rK,
        recordOf st4, by rw [rP, h4P], ?_, ?_, ?_, ?_, ?_, ?_⟩
      · show st4.current_index + 1 = st1.current_index + 1
        rw [h4I]
      · show (match st4.current_email with | some e => e.sender | none => "") = e.sender
        rw [h4C]
      · show (match st4.current_email with | some e => e.subject | none => "") = e.subject
        rw [h4C]
      · show st4.calendar_action = "none" → st4.calendar_event_id = none
        intro hn
        rw [h4K]
        exact h3Imp (h4A.symm.trans hn)
      · show st4.needs_reply = false → st4.draft_id = none
        exact h4Imp
      · show st4.calendar_action = "meeting" ∨ st4.calendar_action = "reminder" ∨
          st4.calendar_action = "none"
        rw [h4A, h3A]
        exact hsa

end Assistant

namespace Assistant

theorem load_fields (st : AgentState) :
    (load_next_email_node st).emails = st.emails ∧
    (load_next_email_node st).current_index = st.current_index ∧
    (load_next_email_node st).processed_results = st.processed_results ∧
    (load_next_email_node st).draft_id = st.draft_id ∧
    (load_next_email_node st).calendar_event_id = st.calendar_event_id := by
  unfold load_next_email_node
  split <;> simp

theorem load_email_eq (st : AgentState) (h : st.current_index < st.emails.length) :
    (load_next_email_node st).current_email = st.emails.get? st.current_index := by
  unfold load_next_email_node
  rw [if_neg (by omega)]

theorem load_email_none (st : AgentState) (h : ¬ st.current_index < st.emails.length) :
    (load_next_email_node st).current_email = none := by
  unfold load_next_email_node
  rw [if_pos (by omega)]

theorem route_record_char (st : AgentState) :
    route_after_record st = "load_next" ↔ st.current_index < st.emails.length := by
  unfold route_after_record
  split <;> simp_all

theorem runFromLoad_spec (env : Env) :
    ∀ (fuel : Nat) (st stF : AgentState) (calls : List ExtCall),
    runFromLoad env fuel st = Except.ok (stF, calls) →
    st.draft_id = none → st.calendar_event_id = none →
    ∃ newRecs : List ProcessedResult,
      stF.processed_results = st.processed_results ++ newRecs ∧
      stF.emails = st.emails ∧
      newRecs.length = st.emails.length - st.current_index ∧
      (∀ j r, newRecs.get? j = some r →
        r.index = st.current_index + j + 1 ∧
        (∀ e, st.emails.get? (st.current_index + j) = some e →
          r.sender = e.sender ∧ r.subject = e.subject) ∧
        (r.calendar_action = "none" → r.calendar_event_id = none) ∧
        (r.needs_reply = false → r.draft_id = none) ∧
        (r.calendar_action = "meeting" ∨ r.calendar_action = "reminder" ∨
          r.calendar_action = "none")) := by
  intro fuel
  induction fuel with
  | zero =>
    intro st stF calls h
    simp [runFromLoad] at h
  | succ fuel ih =>
    intro st stF calls h hd hc
    simp only [runFromLoad] at h
    split at h
    · rename_i hroute
      have hlt : st.current_index < st.emails.length := by
        by_contra hge
        have hnone := load_email_none st hge
        unfold route_after_load at hroute
        rw [hnone] at hroute
        simp at hroute
      obtain ⟨lE, lI, lP, lD, lK⟩ := load_fields st
      have hsomeE : (load_next_email_node st).current_email =
          some (st.emails.get ⟨st.current_index, hlt⟩) := by
        rw [load_email_eq st hlt]
        exact List.get?_eq_get hlt
      split at h
      · simp at h
      next st5 callsA heqP =>
        obtain ⟨p1, p2, p3, p4, r, pr, pidx, psend, psubj, pimp1, pimp2, pmem⟩ :=
          processLoadedEmail_ok env (load_next_email_node st) _ st5 callsA hsomeE
            (lD.trans hd) (lK.trans hc) heqP
        have h5E : st5.emails = st.emails := p1.trans lE
        have h5I : st5.current_index = st.current_index + 1 := by rw [p2, lI]
        have h5P : st5.processed_results = st.processed_results ++ [r] := by
          rw [pr, lP]
        split at h
        · split at h
          · simp at h
          next stG callsB heqR =>
            simp only [Except.ok.injEq, Prod.mk.injEq] at h
            obtain ⟨hFG, hcalls⟩ := h
            subst hFG
            obtain ⟨newRecs2, q1, q2, q3, q4⟩ := ih st5 _ callsB heqR p3 p4
            refine ⟨r :: newRecs2, ?_, ?_, ?_, ?_⟩
            · rw [q1, h5P, List.append_assoc]
              rfl
            · rw [q2, h5E]
            · rw [List.length_cons, q3, h5E, h5I]
              omega
            · intro j rr hj
              cases j with
              | zero =>
                rw [List.get?_cons_zero] at hj
                cases hj
                refine ⟨by rw [pidx, lI], ?_, pimp1, pimp2, pmem⟩
                intro e' he'
                have hee : some (st.emails.get ⟨st.current_index, hlt⟩) = some e' := by
                  rw [← List.get?_eq_get hlt]
                  simpa using he'
                cases hee
                exact ⟨psend, psubj⟩
              | succ j =>
                rw [List.get?_cons_succ] at hj
                obtain ⟨q4a, q4b, q4c, q4d, q4e⟩ := q4 j rr hj
                refine ⟨?_, ?_, q4c, q4d, q4e⟩
                · rw [q4a, h5I]
                  omega
                · intro e' he'
                  apply q4b
                  rw [h5E, h5I]
                  have harith : st.current_index + 1 + j = st.current_index + (j + 1) := by
                    omega
                  rw [harith]
                  exact he'
        · rename_i hrec
          simp only [print_digest_node, Except.ok.injEq, Prod.mk.injEq] at h
          obtain ⟨hF5, hcalls⟩ := h
          subst hF5
          have hnlt : ¬ (st5.current_index < st5.emails.length) := by
            intro hx
            exact hrec ((route_record_char st5).mpr hx)
          rw [h5E, h5I] at hnlt
          refine ⟨[r], by rw [h5P], h5E, ?_, ?_⟩
          · simp only [List.length_singleton]
            omega
          · intro j rr hj
            cases j with
            | zero =>
              rw [List.get?_cons_zero] at hj
              cases hj
              refine ⟨by rw [pidx, lI], ?_, pimp1, pimp2, pmem⟩
              intro e' he'
              have hee : some (st.emails.get ⟨st.current_index, hlt⟩) = some e' := by
                rw [← List.get?_eq_get hlt]
                simpa using he'
              cases hee
              exact ⟨psend, psubj⟩
            | succ j =>
              simp at hj
    · rename_i hroute
      simp only [print_digest_node, Except.ok.injEq, Prod.mk.injEq] at h
      obtain ⟨hF1, hcalls⟩ := h
      subst hF1
      have hge : ¬ st.current_index < st.emails.length := by
        intro hlt
        apply hroute
        unfold route_after_load
        rw [load_email_eq st hlt, List.get?_eq_get hlt]
        simp
      obtain ⟨lE, lI, lP, lD, lK⟩ := load_fields st
      refine ⟨[], by rw [lP]; simp, lE, by simp only [List.length_nil]; omega, ?_⟩
      intro j rr hj
      simp at hj

end Assistant

namespace Assistant

theorem runAgent_spec (env : Env) (stF : AgentState) (calls : List ExtCall)
    (h : runAgent env = Except.ok (stF, calls)) :
    stF.processed_results.length = stF.emails.length ∧
    (∀ j r, stF.processed_results.get? j = some r →
      r.index = j + 1 ∧
      (∀ e, stF.emails.get? j = some e → r.sender = e.sender ∧ r.subject = e.subject) ∧
      (r.calendar_action = "none" → r.calendar_event_id = none) ∧
      (r.needs_reply = false → r.draft_id = none) ∧
      (r.calendar_action = "meeting" ∨ r.calendar_action = "reminder" ∨
        r.calendar_action = "none")) := by
  simp only [runAgent] at h
  split at h
  · have hP : (fetch_emails_node env initialState).processed_results = [] := rfl
    have hI : (fetch_emails_node env initialState).current_index = 0 := rfl
    have hD : (fetch_emails_node env initialState).draft_id = none := rfl
    have hK : (fetch_emails_node env initialState).calendar_event_id = none := rfl
    obtain ⟨newRecs, q1, q2, q3, q4⟩ := runFromLoad_spec env _ _ stF calls h hD hK
    rw [hP] at q1
    simp only [List.nil_append] at q1
    rw [hI] at q3
    constructor
    · rw [q1, q2, q3]
      omega
    · intro j r hj
      rw [q1] at hj
      obtain ⟨a, b, c, d, e'⟩ := q4 j r hj
      rw [hI] at a b
      simp only [Nat.zero_add] at a b
      refine ⟨a, ?_, c, d, e'⟩
      intro e he
      rw [q2] at he
      exact b e he
  · rename_i hroute
    simp only [print_digest_node, Except.ok.injEq, Prod.mk.injEq] at h
    obtain ⟨hF, hcalls⟩ := h
    subst hF
    have hnil : (fetch_emails_node env initialState).emails = [] := by
      by_contra hne
      exact hroute (by unfold route_after_fetch; rw [if_pos hne])
    have hP : (fetch_emails_node env initialState).processed_results = [] := rfl
    constructor
    · rw [hP, hnil]
      rfl
    · intro j r hj
      rw [hP] at hj
      simp at hj

end Assistant

namespace Assistant

/-- C1: for every completed run of the workflow controller, the accumulated
`processed_results` list has exactly one record per fetched email, in fetch
order: record `j` carries index `j + 1` and the sender/subject of the email
at position `j` of the fetched list. -/
theorem c1_one_record_per_email_in_fetch_order (env : Env) (stF : AgentState)
    (calls : List ExtCall) (h : runAgent env = Except.ok (stF, calls)) :
    stF.processed_results.length = stF.emails.length ∧
    ∀ j r e, stF.processed_results.get? j = some r → stF.emails.get? j = some e →
      r.index = j + 1 ∧ r.sender = e.sender ∧ r.subject = e.subject := by
  obtain ⟨hlen, hrec⟩ := runAgent_spec env stF calls h
  refine ⟨hlen, ?_⟩
  intro j r e hr he
  obtain ⟨a, b, _, _, _⟩ := hrec j r hr
  obtain ⟨s1, s2⟩ := b e he
  exact ⟨a, s1, s2⟩

/-- C2: in every completed run, a result recorded with `calendar_action`
equal to `none` has a null `calendar_event_id`; a non-null
`calendar_event_id` only occurs for an email the classifier tagged
`meeting` or `reminder`; and when the state reaches the calendar node with
action `none` the node makes no external call at all and stores a null
event id. -/
theorem c2_event_only_for_meeting_or_reminder (env : Env) (stF : AgentState)
    (calls : List ExtCall) (h : runAgent env = Except.ok (stF, calls)) :
    (∀ r ∈ stF.processed_results,
      (r.calendar_action = "none" → r.calendar_event_id = none) ∧
      (r.calendar_event_id ≠ none →
        r.calendar_action = "meeting" ∨ r.calendar_action = "reminder")) ∧
    (∀ (env' : Env) (st : AgentState), st.calendar_action = "none" →
      calendar_action_node env' st =
        Except.ok ({ st with calendar_event_id := none, conflict_detected := false }, [])) := by
  obtain ⟨hlen, hrec⟩ := runAgent_spec env stF calls h
  constructor
  · intro r hmem
    obtain ⟨j, hj⟩ := List.mem_iff_get?.mp hmem
    obtain ⟨_, _, hc2, _, hmem3⟩ := hrec j r hj
    refine ⟨hc2, ?_⟩
    intro hne
    rcases hmem3 with hm | hm | hm
    · exact Or.inl hm
    · exact Or.inr hm
    · exact absurd (hc2 hm) hne
  · intro env' st hn
    unfold calendar_action_node calendar_action_update
    rw [if_pos (Or.inl hn)]

/-- C7: in every completed run, a result recorded with
`needs_reply = false` has a null draft identifier. -/
theorem c7_no_reply_no_draft (env : Env) (stF : AgentState)
    (calls : List ExtCall) (h : runAgent env = Except.ok (stF, calls)) :
    ∀ r ∈ stF.processed_results, r.needs_reply = false → r.draft_id = none := by
  obtain ⟨hlen, hrec⟩ := runAgent_spec env stF calls h
  intro r hmem
  obtain ⟨j, hj⟩ := List.mem_iff_get?.mp hmem
  obtain ⟨_, _, _, hd, _⟩ := hrec j r hj
  exact hd

/-- C10: `calendar_action` is an inductive invariant of the three-value set
`meeting`/`reminder`/`none`: the classification node always lands in the set
(any other classifier output, in any case, is normalized to `none`), the
record node resets the field to `none`, the initial state starts at `none`,
and every other node of the graph leaves the field unchanged — so every
reachable state keeps `calendar_action` inside the set. -/
theorem c10_calendar_action_invariant :
    (∀ (env : Env) (st : AgentState),
      (summarize_email_node env st).calendar_action = "meeting" ∨
      (summarize_email_node env st).calendar_action = "reminder" ∨
      (summarize_email_node env st).calendar_action = "none") ∧
    (∀ st : AgentState, (record_result_node st).calendar_action = "none") ∧
    initialState.calendar_action = "none" ∧
    (∀ (env : Env) (st : AgentState),
      (fetch_emails_node env st).calendar_action = st.calendar_action) ∧
    (∀ st : AgentState, (load_next_email_node st).calendar_action = st.calendar_action) ∧
    (∀ (env : Env) (st st' : AgentState) (calls : List ExtCall),
      calendar_action_node env st = Except.ok (st', calls) →
      st'.calendar_action = st.calendar_action) ∧
    (∀ (env : Env) (st st' : AgentState),
      draft_reply_node env st = Except.ok st' →
      st'.calendar_action = st.calendar_action) ∧
    (∀ (env : Env) (st st' : AgentState) (calls : List ExtCall),
      save_draft_node env st = Except.ok (st', calls) →
      st'.calendar_action = st.calendar_action) ∧
    (∀ st : AgentState, (print_digest_node st).calendar_action = st.calendar_action) := by
  refine ⟨summarize_action_mem, fun st => (record_fields st).2.2.2.2.2.2, rfl,
    fun env st => rfl, ?_, ?_, ?_, ?_, fun st => rfl⟩
  · intro st
    unfold load_next_email_node
    split <;> rfl
  · intro env st st' calls h
    exact ((calendar_ok_frame env st st' calls h).2.2.2.2.2.2.2.2.2).1
  · intro env st st' h
    exact (draft_ok_frame env st st' h).2.2.2.2.2.2.2.1
  · intro env st st' calls h
    exact (save_ok_frame env st st' calls h).2.2.2.2.2.2.1

/-- C4 (amended): in every completed run the digest counts satisfy
`drafts_saved ≤ total`, `events_created ≤ total` and `conflicts ≤ total`
(the original bound `conflicts ≤ events_created` fails when a conflicted
meeting's event creation itself fails). -/
theorem c4_digest_counts_amended (env : Env) (stF : AgentState)
    (calls : List ExtCall) (h : runAgent env = Except.ok (stF, calls)) :
    (drafts_saved stF.processed_results).length ≤ stF.processed_results.length ∧
    (events_created stF.processed_results).length ≤ stF.processed_results.length ∧
    (conflicts_found stF.processed_results).length ≤ stF.processed_results.length :=
  ⟨List.length_filter_le _ _, List.length_filter_le _ _, List.length_filter_le _ _⟩

end Assistant

namespace Assistant

theorem calendar_update_meeting (env : Env) (st : AgentState) (email : Email)
    (sdt : PyDateTime)
    (he : st.current_email = some email)
    (ha : st.calendar_action = "meeting")
    (hd : st.calendar_details.isEmpty = false)
    (hp : pyFromIsoformat (resolvedStart env st.calendar_details) = some sdt) :
    calendar_action_update env st = Except.ok
      ((Option.bind (create_event env (resolvedTitle st.calendar_details email)
          (resolvedStart env st.calendar_details) (resolvedEnd env st.calendar_details sdt)
          (resolvedDescription st.calendar_details email)
          (st.calendar_details.attendee_email.getD "") 30 env.timezone).1 CalEvent.id,
        !(check_conflicts env (resolvedStart env st.calendar_details)
          (resolvedEnd env st.calendar_details sdt)).1.isEmpty),
       (check_conflicts env (resolvedStart env st.calendar_details)
          (resolvedEnd env st.calendar_details sdt)).2 ++
       (create_event env (resolvedTitle st.calendar_details email)
          (resolvedStart env st.calendar_details) (resolvedEnd env st.calendar_details sdt)
          (resolvedDescription st.calendar_details email)
          (st.calendar_details.attendee_email.getD "") 30 env.timezone).2) := by
  simp only [calendar_action_update]
  rw [if_neg (by simp [ha, hd]), he, hp]
  simp only [ha]
  rfl

theorem calendar_update_reminder (env : Env) (st : AgentState) (email : Email)
    (sdt : PyDateTime)
    (he : st.current_email = some email)
    (ha : st.calendar_action = "reminder")
    (hd : st.calendar_details.isEmpty = false)
    (hp : pyFromIsoformat (resolvedStart env st.calendar_details) = some sdt) :
    calendar_action_update env st = Except.ok
      ((Option.bind (create_event env
          ("🔔 Reminder: " ++ resolvedTitle st.calendar_details email)
          (pyIsoformat sdt) (pyIsoformat (pyAddMinutes sdt 15))
          (resolvedDescription st.calendar_details email) "" 0 env.timezone).1 CalEvent.id,
        false),
       (create_event env ("🔔 Reminder: " ++ resolvedTitle st.calendar_details email)
          (pyIsoformat sdt) (pyIsoformat (pyAddMinutes sdt 15))
          (resolvedDescription st.calendar_details email) "" 0 env.timezone).2) := by
  simp only [calendar_action_update, create_reminder]
  rw [if_neg (by simp [ha, hd]), he, hp]
  simp only [ha]
  rfl

/-- C3: a detected conflict never prevents event creation: for a `meeting`
classification with a non-empty details dict, a parseable start string and a
non-empty busy-interval result, the calendar node still performs the
`create_event` call (the call is in the log and the recorded event id is
exactly what `create_event` returned) and sets `conflict_detected = true`. -/
theorem c3_conflict_is_advisory_only (env : Env) (st : AgentState) (email : Email)
    (sdt : PyDateTime)
    (he : st.current_email = some email)
    (ha : st.calendar_action = "meeting")
    (hd : st.calendar_details.isEmpty = false)
    (hp : pyFromIsoformat (resolvedStart env st.calendar_details) = some sdt)
    (hcf : (check_conflicts env (resolvedStart env st.calendar_details)
        (resolvedEnd env st.calendar_details sdt)).1 ≠ []) :
    calendar_action_node env st = Except.ok
      ({ st with
          calendar_event_id := Option.bind (create_event env
            (resolvedTitle st.calendar_details email)
            (resolvedStart env st.calendar_details)
            (resolvedEnd env st.calendar_details sdt)
            (resolvedDescription st.calendar_details email)
            (st.calendar_details.attendee_email.getD "") 30 env.timezone).1 CalEvent.id,
          conflict_detected := true },
        (check_conflicts env (resolvedStart env st.calendar_details)
          (resolvedEnd env st.calendar_details sdt)).2 ++
        [ExtCall.createEvent (resolvedTitle st.calendar_details email)
          (resolvedStart env st.calendar_details)
          (resolvedEnd env st.calendar_details sdt)
          (resolvedDescription st.calendar_details email)
          (st.calendar_details.attendee_email.getD "") 30 env.timezone]) := by
  have hem : (check_conflicts env (resolvedStart env st.calendar_details)
      (resolvedEnd env st.calendar_details sdt)).1.isEmpty = false := by
    cases hq : (check_conflicts env (resolvedStart env st.calendar_details)
        (resolvedEnd env st.calendar_details sdt)).1
    · exact absurd hq hcf
    · rfl
  unfold calendar_action_node
  rw [calendar_update_meeting env st email sdt he ha hd hp]
  simp [hem, create_event]

end Assistant

namespace Assistant

/-- C5 (amended): for an email classified `meeting` or `reminder` with a
non-empty details dict whose extracted date or time is missing/empty, the
start string resolves to tomorrow (now + 1 day) at 10:00; for a `meeting` the
created event ends at start plus the extracted `duration_minutes` when
present, otherwise the default meeting duration; for a `reminder` the created
block ends 15 minutes after the start (the original claim wrongly asserted
the default duration is always used). -/
theorem c5_missing_datetime_defaults_amended (env : Env) (st : AgentState)
    (email : Email)
    (he : st.current_email = some email)
    (hact : st.calendar_action = "meeting" ∨ st.calendar_action = "reminder")
    (hdne : st.calendar_details.isEmpty = false)
    (hmiss : st.calendar_details.date.getD "" = "" ∨
      st.calendar_details.time.getD "" = "") :
    resolvedStart env st.calendar_details =
      fmtYmd (pyAddDays env.now 1) ++ "T10:00:00" ∧
    ∀ sdt, pyFromIsoformat (resolvedStart env st.calendar_details) = some sdt →
      (st.calendar_action = "meeting" →
        calendar_action_node env st = Except.ok
          ({ st with
              calendar_event_id := Option.bind (create_event env
                (resolvedTitle st.calendar_details email)
                (resolvedStart env st.calendar_details)
                (resolvedEnd env st.calendar_details sdt)
                (resolvedDescription st.calendar_details email)
                (st.calendar_details.attendee_email.getD "") 30 env.timezone).1 CalEvent.id,
              conflict_detected := !(check_conflicts env
                (resolvedStart env st.calendar_details)
                (resolvedEnd env st.calendar_details sdt)).1.isEmpty },
            (check_conflicts env (resolvedStart env st.calendar_details)
              (resolvedEnd env st.calendar_details sdt)).2 ++
            [ExtCall.createEvent (resolvedTitle st.calendar_details email)
              (resolvedStart env st.calendar_details)
              (resolvedEnd env st.calendar_details sdt)
              (resolvedDescription st.calendar_details email)
              (st.calendar_details.attendee_email.getD "") 30 env.timezone])) ∧
      (st.calendar_action = "reminder" →
        calendar_action_node env st = Except.ok
          ({ st with
              calendar_event_id := Option.bind (create_event env
                ("🔔 Reminder: " ++ resolvedTitle st.calendar_details email)
                (pyIsoformat sdt) (pyIsoformat (pyAddMinutes sdt 15))
                (resolvedDescription st.calendar_details email) "" 0 env.timezone).1
                CalEvent.id,
              conflict_detected := false },
            [ExtCall.createEvent ("🔔 Reminder: " ++ resolvedTitle st.calendar_details email)
              (pyIsoformat sdt) (pyIsoformat (pyAddMinutes sdt 15))
              (resolvedDescription st.calendar_details email) "" 0 env.timezone])) := by
  constructor
  · unfold resolvedStart resolvedDateStr resolvedTimeStr
    rw [if_pos hmiss, if_pos hmiss, String.append_assoc, String.append_assoc]
    congr 1
  · intro sdt hp
    constructor
    · intro ha
      unfold calendar_action_node
      rw [calendar_update_meeting env st email sdt he ha hdne hp]
      simp [create_event]
    · intro ha
      unfold calendar_action_node
      rw [calendar_update_reminder env st email sdt he ha hdne hp]
      simp [create_event]

/-- C6 (amended): when the classifier output fails to parse, the node
substitutes the fallback judgment — summary set to the first 300 characters
of the raw output (not the empty string), reply not needed, reason
`Parse error`, calendar action `none`, empty details — and routing proceeds
to the record step rather than failing. -/
theorem c6_parse_error_fallback_amended (env : Env) (st : AgentState)
    (email : Email) (content : String)
    (he : st.current_email = some email)
    (hcl : env.classify email = ClassifierResponse.unparseable content) :
    summarize_email_node env st =
      { st with summary := mkSummaryText (fallbackData content)
                needs_reply := false
                reply_reason := "Parse error"
                calendar_action := "none"
                calendar_details := emptyDetails } ∧
    (fallbackData content).summary = some (pyTake content 300) ∧
    route_after_summarize (summarize_email_node env st) = "record" := by
  have h1 : summarize_email_node env st =
      { st with summary := mkSummaryText (fallbackData content)
                needs_reply := false
                reply_reason := "Parse error"
                calendar_action := "none"
                calendar_details := emptyDetails } := by
    unfold summarize_email_node
    rw [he]
    dsimp only
    rw [hcl]
    rfl
  refine ⟨h1, rfl, ?_⟩
  rw [h1]
  rfl

end Assistant

namespace Assistant

/-- C8: a manual calendar confirmation whose date is not accepted as a
`YYYY-MM-DD` value or whose time is not accepted as `HH:MM` (empty strings
and placeholder text containing a bracket included) is rejected with a
descriptive 400 error and the endpoint attempts no external call. -/
theorem c8_invalid_date_time_rejected (env : Env) (req : CalendarConfirmRequest)
    (h : confirmDateAccepted req.date = false ∨ confirmTimeAccepted req.time = false) :
    (∃ detail, (confirm_calendar env req).1 = ApiResult.httpError 400 detail) ∧
    (confirm_calendar env req).2 = [] := by
  unfold confirm_calendar
  split
  · exact ⟨⟨_, rfl⟩, rfl⟩
  · split
    · exact ⟨⟨_, rfl⟩, rfl⟩
    · split
      · exact ⟨⟨_, rfl⟩, rfl⟩
      · split
        · exact ⟨⟨_, rfl⟩, rfl⟩
        · exfalso
          rename_i h1 h2 h3 h4
          rcases h with h | h
          · unfold confirmDateAccepted at h
            simp only [Bool.not_eq_true] at h1 h3
            have h3t : strptimeYmdOk (pyStrip req.date) = true := by
              revert h3
              cases strptimeYmdOk (pyStrip req.date) <;> simp
            rw [h1, h3t] at h
            simp at h
          · unfold confirmTimeAccepted at h
            simp only [Bool.not_eq_true] at h2 h4
            have h4t : strptimeHMOk (pyStrip req.time) = true := by
              revert h4
              cases strptimeHMOk (pyStrip req.time) <;> simp
            rw [h2, h4t] at h
            simp at h

theorem save_calls_no_calendar (env : Env) (st st' : AgentState)
    (calls : List ExtCall) (h : save_draft_node env st = Except.ok (st', calls)) :
    calls.filter ExtCall.isCalendarCall = [] := by
  unfold save_draft_node at h
  split at h
  · simp only [Except.ok.injEq, Prod.mk.injEq] at h
    rw [← h.2]
    rfl
  · split at h
    · simp at h
    · simp only [Except.ok.injEq, Prod.mk.injEq] at h
      rw [← h.2]
      rfl

end Assistant

namespace Assistant

/-- C9: when the classifier tags an email `meeting` or `reminder` but returns
an empty `calendar_details` dict, the calendar step is skipped entirely: the
email's processing makes no conflict-check or event-creation call, and the
recorded result has a null `calendar_event_id` and `conflict_detected = false`
(while keeping the classified calendar action). -/
theorem c9_empty_details_skips_calendar (env : Env) (st1 : AgentState)
    (email : Email) (d : ClassifierData) (st5 : AgentState) (callsA : List ExtCall)
    (he : st1.current_email = some email)
    (hcl : env.classify email = ClassifierResponse.parsed d)
    (hact : pyLower (d.calendar_action.getD "none") = "meeting" ∨
            pyLower (d.calendar_action.getD "none") = "reminder")
    (hdet : d.calendar_details.getD emptyDetails = emptyDetails)
    (hok : processLoadedEmail env st1 = Except.ok (st5, callsA)) :
    callsA.filter ExtCall.isCalendarCall = [] ∧
    ∃ r, st5.processed_results = st1.processed_results ++ [r] ∧
      r.calendar_event_id = none ∧ r.conflict_detected = false ∧
      r.calendar_action = pyLower (d.calendar_action.getD "none") := by
  have hsum : summarize_email_node env st1 =
      { st1 with summary := mkSummaryText d
                 needs_reply := d.reply_needed.getD false
                 reply_reason := d.reply_reason.getD ""
                 calendar_action := pyLower (d.calendar_action.getD "none")
                 calendar_details := emptyDetails } := by
    unfold summarize_email_node
    rw [he]
    dsimp only
    rw [hcl]
    dsimp only
    rw [if_pos hact, hdet]
  have hactne : pyLower (d.calendar_action.getD "none") ≠ "none" := by
    rcases hact with h | h <;> simp [h]
  have hroute : route_after_summarize (summarize_email_node env st1) = "calendar" := by
    rw [hsum]
    unfold route_after_summarize
    rw [if_pos (by simpa using hactne)]
  have hcalnode : calendar_action_node env (summarize_email_node env st1) =
      Except.ok ({ st1 with summary := mkSummaryText d
                            needs_reply := d.reply_needed.getD false
                            reply_reason := d.reply_reason.getD ""
                            calendar_action := pyLower (d.calendar_action.getD "none")
                            calendar_details := emptyDetails
                            calendar_event_id := none
                            conflict_detected := false }, []) := by
    rw [hsum]
    unfold calendar_action_node calendar_action_update
    dsimp only
    have hcond : pyLower (d.calendar_action.getD "none") = "none" ∨
        emptyDetails.isEmpty = true := Or.inr rfl
    rw [if_pos hcond]
  simp only [processLoadedEmail] at hok
  split at hok
  · simp at hok
  next st3 calls1 heq =>
    split at hok
    · simp at hok
    next st4 calls2 heq2 =>
      simp only [Except.ok.injEq, Prod.mk.injEq] at hok
      obtain ⟨h5, hcallsA⟩ := hok
      rw [if_pos hroute, hcalnode] at heq
      simp only [Except.ok.injEq, Prod.mk.injEq] at heq
      obtain ⟨h3eq, h1eq⟩ := heq
      have h3K : st3.calendar_event_id = none := by rw [← h3eq]
      have h3F : st3.conflict_detected = false := by rw [← h3eq]
      have h3P : st3.processed_results = st1.processed_results := by rw [← h3eq]
      have h3A : st3.calendar_action = pyLower (d.calendar_action.getD "none") := by
        rw [← h3eq]
      have hst4 : st4.calendar_event_id = none ∧ st4.conflict_detected = false ∧
          st4.processed_results = st1.processed_results ∧
          st4.calendar_action = pyLower (d.calendar_action.getD "none") ∧
          calls2.filter ExtCall.isCalendarCall = [] := by
        split at heq2
        · split at heq2
          · split at heq2
            · simp at heq2
            next st3d heq3 =>
              obtain ⟨b1, b2, b3, b4, b5, b6, b7, b8, b9, b10⟩ :=
                draft_ok_frame env st3 st3d heq3
              obtain ⟨c1, c2, c3, c4, c5, c6, c7, c8, c9⟩ :=
                save_ok_frame env st3d st4 calls2 heq2
              exact ⟨c8.trans (b9.trans h3K), c9.trans (b10.trans h3F),
                c4.trans (b4.trans h3P), c7.trans (b8.trans h3A),
                save_calls_no_calendar env st3d st4 calls2 heq2⟩
          · simp only [Except.ok.injEq, Prod.mk.injEq] at heq2
            obtain ⟨h43, hc2⟩ := heq2
            subst h43
            exact ⟨h3K, h3F, h3P, h3A, by rw [← hc2]; rfl⟩
        · split at heq2
          · split at heq2
            · simp at heq2
            next st3d heq3 =>
              obtain ⟨b1, b2, b3, b4, b5, b6, b7, b8, b9, b10⟩ :=
                draft_ok_frame env st3 st3d heq3
              obtain ⟨c1, c2, c3, c4, c5, c6, c7, c8, c9⟩ :=
                save_ok_frame env st3d st4 calls2 heq2
              exact ⟨c8.trans (b9.trans h3K), c9.trans (b10.trans h3F),
                c4.trans (b4.trans h3P), c7.trans (b8.trans h3A),
                save_calls_no_calendar env st3d st4 calls2 heq2⟩
          · simp only [Except.ok.injEq, Prod.mk.injEq] at heq2
            obtain ⟨h43, hc2⟩ := heq2
            subst h43
            exact ⟨h3K, h3F, h3P, h3A, by rw [← hc2]; rfl⟩
      obtain ⟨h4K, h4F, h4P, h4A, h4calls⟩ := hst4
      constructor
      · rw [← hcallsA, ← h1eq]
        simpa using h4calls
      · refine ⟨recordOf st4, ?_, ?_, ?_, ?_⟩
        · rw [← h5, (record_fields st4).1, h4P]
        · show st4.calendar_event_id = none
          exact h4K
        · show st4.conflict_detected = false
          exact h4F
        · show st4.calendar_action = pyLower (d.calendar_action.getD "none")
          exact h4A

end Assistant

namespace Assistant

theorem runAgentW_ok : runAgent envW = Except.ok (stFW, callsW) := rfl

theorem runC4_ok : runAgent envC4 = Except.ok (stC4F, callsC4F) := rfl

theorem procC9_ok : processLoadedEmail envC9 stC6 = Except.ok (stC9out, callsC9out) := rfl

/-- Witness for C1 at the concrete two-email run. -/
theorem c1_witness : stFW.processed_results.length = stFW.emails.length :=
  (c1_one_record_per_email_in_fetch_order envW stFW callsW runAgentW_ok).1

/-- Witness for C2: the calendar node at a concrete `none`-action state. -/
theorem c2_witness : calendar_action_node envW initialState =
    Except.ok
      ({ initialState with calendar_event_id := none, conflict_detected := false },
       []) :=
  (c2_event_only_for_meeting_or_reminder envW stFW callsW runAgentW_ok).2
    envW initialState rfl

/-- Witness for C3 at a concrete conflicted meeting. -/
theorem c3_witness : calendar_action_node envW stC3 = Except.ok
    ({ stC3 with
        calendar_event_id := Option.bind (create_event envW
          (resolvedTitle stC3.calendar_details emailW1)
          (resolvedStart envW stC3.calendar_details)
          (resolvedEnd envW stC3.calendar_details ⟨2026, 3, 20, 14, 0, 0⟩)
          (resolvedDescription stC3.calendar_details emailW1)
          (stC3.calendar_details.attendee_email.getD "") 30 envW.timezone).1 CalEvent.id,
        conflict_detected := true },
      (check_conflicts envW (resolvedStart envW stC3.calendar_details)
        (resolvedEnd envW stC3.calendar_details ⟨2026, 3, 20, 14, 0, 0⟩)).2 ++
      [ExtCall.createEvent (resolvedTitle stC3.calendar_details emailW1)
        (resolvedStart envW stC3.calendar_details)
        (resolvedEnd envW stC3.calendar_details ⟨2026, 3, 20, 14, 0, 0⟩)
        (resolvedDescription stC3.calendar_details emailW1)
        (stC3.calendar_details.attendee_email.getD "") 30 envW.timezone]) :=
  c3_conflict_is_advisory_only envW stC3 emailW1 ⟨2026, 3, 20, 14, 0, 0⟩
    rfl rfl rfl (by decide) (by decide)

/-- Witness for the amended C4 at the concrete run. -/
theorem c4_witness :
    (drafts_saved stFW.processed_results).length ≤ stFW.processed_results.length ∧
    (events_created stFW.processed_results).length ≤ stFW.processed_results.length ∧
    (conflicts_found stFW.processed_results).length ≤ stFW.processed_results.length :=
  c4_digest_counts_amended envW stFW callsW runAgentW_ok

/-- Counterexample to C4 as stated: a run with one conflicted meeting whose
event insertion fails has one conflict counted but zero events created, so
`conflicts ≤ events_created` is violated. -/
theorem c4_counterexample :
    runAgent envC4 = Except.ok (stC4F, callsC4F) ∧
    (conflicts_found stC4F.processed_results).length = 1 ∧
    (events_created stC4F.processed_results).length = 0 ∧
    ¬ (conflicts_found stC4F.processed_results).length ≤
        (events_created stC4F.processed_results).length :=
  ⟨rfl, by decide, by decide, by decide⟩

/-- Witness for the amended C5: the resolved start string is tomorrow at
10:00. -/
theorem c5_witness : resolvedStart envW stC5m.calendar_details =
    fmtYmd (pyAddDays envW.now 1) ++ "T10:00:00" :=
  (c5_missing_datetime_defaults_amended envW stC5m emailW1 rfl (Or.inl rfl) rfl
    (Or.inl rfl)).1

/-- Counterexample to C5 as stated: with the date/time missing but an
extracted `duration_minutes` of 30, the meeting event ends 30 minutes after
the default start, not after the 60-minute default duration; a reminder with
missing date/time ends 15 minutes after the default start. -/
theorem c5_counterexample :
    calendar_action_node envW stC5m = Except.ok
      ({ stC5m with calendar_event_id := some "EVT1", conflict_detected := true },
       [ExtCall.checkConflicts "2026-03-16T10:00:00Z" "2026-03-16T10:30:00Z",
        ExtCall.createEvent "Standup" "2026-03-16T10:00:00" "2026-03-16T10:30:00"
          "From: Alice A <alice@example.com>\nSubject: Project sync" "" 30
          "Asia/Kolkata"]) ∧
    "2026-03-16T10:30:00" ≠
      pyIsoformat (pyAddMinutes ⟨2026, 3, 16, 10, 0, 0⟩ envW.defaultMeetingDuration) ∧
    calendar_action_node envW stC5r = Except.ok
      ({ stC5r with calendar_event_id := some "EVT1", conflict_detected := false },
       [ExtCall.createEvent "🔔 Reminder: Pay bills" "2026-03-16T10:00:00"
          "2026-03-16T10:15:00"
          "From: Alice A <alice@example.com>\nSubject: Project sync" "" 0
          "Asia/Kolkata"]) ∧
    "2026-03-16T10:15:00" ≠
      pyIsoformat (pyAddMinutes ⟨2026, 3, 16, 10, 0, 0⟩ envW.defaultMeetingDuration) :=
  ⟨rfl, by decide, rfl, by decide⟩

/-- Witness for the amended C6: after an unparseable classifier output the
pipeline routes to the record step. -/
theorem c6_witness :
    route_after_summarize (summarize_email_node envC6 stC6) = "record" :=
  (c6_parse_error_fallback_amended envC6 stC6 emailW1 "this is not JSON" rfl rfl).2.2

/-- Counterexample to C6 as stated: the fallback judgment's summary is the
raw (truncated) classifier output, not the empty string. -/
theorem c6_counterexample :
    (fallbackData "this is not JSON").summary = some "this is not JSON" ∧
    (fallbackData "this is not JSON").summary ≠ some "" ∧
    (summarize_email_node envC6 stC6).summary =
      "SUMMARY: this is not JSON\nSENDER_INTENT: \nKEY_POINTS: \nACTION_REQUIRED: NO\nURGENCY: LOW\nREPLY_NEEDED: NO\nREPLY_REASON: Parse error\nCALENDAR_ACTION: NONE" ∧
    (summarize_email_node envC6 stC6).needs_reply = false ∧
    (summarize_email_node envC6 stC6).calendar_action = "none" :=
  ⟨rfl, by decide, by decide, rfl, rfl⟩

/-- Witness for C7: the second record of the witness run (no reply needed)
has a null draft id. -/
theorem c7_witness :
    (stFW.processed_results.getD 1 (recordOf initialState)).draft_id = none :=
  c7_no_reply_no_draft envW stFW callsW runAgentW_ok
    (stFW.processed_results.getD 1 (recordOf initialState)) (by decide) (by decide)

/-- Witness for C8 at a concrete placeholder date. -/
theorem c8_witness : (confirm_calendar envW reqC8).2 = [] :=
  (c8_invalid_date_time_rejected envW reqC8 (Or.inl (by decide))).2

/-- Witness for C9 at a concrete meeting classification with empty
details. -/
theorem c9_witness : callsC9out.filter ExtCall.isCalendarCall = [] :=
  (c9_empty_details_skips_calendar envC9 stC6 emailW1 dataC9 stC9out callsC9out
    rfl rfl (Or.inl (by decide)) rfl procC9_ok).1

/-- Witness for C10: the calendar node preserves `calendar_action` at a
concrete state. -/
theorem c10_witness :
    AgentState.calendar_action
      { initialState with calendar_event_id := none, conflict_detected := false } =
      initialState.calendar_action :=
  c10_calendar_action_invariant.2.2.2.2.2.1 envW initialState
    { initialState with calendar_event_id := none, conflict_detected := false } [] rfl

end Assistant
